import Mathlib

/-!
Verification of the TopoBenchmark core excerpt: the backbone-wrapper layer
(`topobenchmarkx/models/wrappers/default_wrapper.py`), the training-step
orchestration (`topobenchmarkx/models/network_module.py`), the lifting
registry (`topobenchmark/transforms/liftings/graph2graph/__init__.py`),
the Planetoid dataset loader
(`topobenchmarkx/data/loaders/graph/planetoid_datasets.py`) and the
`DataloadDataset` exercised by `test/data/dataload/test_dataload_dataset.py`.

Tensors are shallowly embedded as integer matrices (`List (List Int)`); a
batch / `TopologicalRecord` is an insertion-ordered association list from
field name to tensor.  Python attribute access on a record is embedded as a
fallible lookup returning `Except WrapperError`, so a record lacking a
field makes the whole forward computation return an error, matching the
exception the Python attribute access raises.
-/

/-- A tensor value: a dense integer matrix (rows of entries).  Vectors such
as `y` are one-column matrices. -/
abbrev Val := List (List Int)

/-- A `TopologicalRecord` / PyG `Data` batch: insertion-ordered field map. -/
abbrev Record := List (String × Val)

/-- Errors the wrapper layer can signal.  `missingField f` is the failure of
the attribute access `batch.f` when field `f` is absent from the record. -/
inductive WrapperError where
  | missingField (field : String)
deriving DecidableEq, Repr

/-- Attribute access `batch.name`: the value stored under `name`, or a
`missingField` error when the record has no such field. -/
def Record.getAttr (r : Record) (name : String) : Except WrapperError Val :=
  match r.lookup name with
  | some v => .ok v
  | none => .error (.missingField name)

/-- The canonical output map (`model_out` in the source): key/value pairs in
the order the Python dict acquires them. -/
abbrev ModelOut := List (String × Val)

/-- Dot product of two integer rows. -/
def dotRow (u v : List Int) : Int := (List.zipWith (· * ·) u v).sum

/-- Column `j` of a matrix. -/
def colOf (B : Val) (j : Nat) : List Int := B.map (fun row => row.getD j 0)

/-- Matrix product, the embedding of `torch.sparse.mm` (sparse storage is a
representation detail; the product it computes is the ordinary one). -/
def matMul (A B : Val) : Val :=
  A.map (fun row =>
    (List.range ((B.headD []).length)).map (fun j => dotRow row (colOf B j)))

/-- `HypergraphWrapper.__call__` from
`topobenchmarkx/models/wrappers/default_wrapper.py`.  The backbone is the
owned `self.backbone`, a function of `(x, incidence_1)` returning the pair
`(x_0, x_1)`.  The batch is threaded through unchanged into the result so
that the absence of in-place mutation of the input record is provable; the
Python method returns only `model_out`. -/
def HypergraphWrapper.call (backbone : Val → Val → Val × Val) (batch : Record) :
    Except WrapperError (Record × ModelOut) := do
  let y ← batch.getAttr "y"
  let x ← batch.getAttr "x"
  let inc ← batch.getAttr "incidence_1"
  let p := backbone x inc
  pure (batch, [("labels", y), ("x_0", p.1), ("hyperedge", p.2)])

/-- `SANWrapper.__call__`: the backbone takes
`(x_1, laplacian_up_1, laplacian_down_1)` and returns the edge-level
output `x_1`, which is projected to node level by
`torch.sparse.mm(batch.incidence_1, x_1)`. -/
def SANWrapper.call (backbone : Val → Val → Val → Val) (batch : Record) :
    Except WrapperError (Record × ModelOut) := do
  let y ← batch.getAttr "y"
  let x1 ← batch.getAttr "x_1"
  let lup ← batch.getAttr "laplacian_up_1"
  let ldn ← batch.getAttr "laplacian_down_1"
  let out1 := backbone x1 lup ldn
  let inc ← batch.getAttr "incidence_1"
  let x0 := matMul inc out1
  pure (batch, [("labels", y), ("x_0", x0)])

/-- `CANWrapper.__call__`: the backbone takes
`(x, x_1, adjacency_0, down_laplacian_1, up_laplacian_1)` and its output is
stored under `x_graph`. -/
def CANWrapper.call (backbone : Val → Val → Val → Val → Val → Val)
    (batch : Record) : Except WrapperError (Record × ModelOut) := do
  let y ← batch.getAttr "y"
  let x ← batch.getAttr "x"
  let x1 ← batch.getAttr "x_1"
  let adj ← batch.getAttr "adjacency_0"
  let dl ← batch.getAttr "down_laplacian_1"
  let ul ← batch.getAttr "up_laplacian_1"
  let out := backbone x x1 adj dl ul
  pure (batch, [("labels", y), ("x_graph", out)])

/-- The `model_out` component of `HypergraphWrapper.__call__`. -/
def HypergraphWrapper.forward (backbone : Val → Val → Val × Val)
    (batch : Record) : Except WrapperError ModelOut :=
  Prod.snd <$> HypergraphWrapper.call backbone batch

/-- The `model_out` component of `SANWrapper.__call__`. -/
def SANWrapper.forward (backbone : Val → Val → Val → Val) (batch : Record) :
    Except WrapperError ModelOut :=
  Prod.snd <$> SANWrapper.call backbone batch

/-- The `model_out` component of `CANWrapper.__call__`. -/
def CANWrapper.forward (backbone : Val → Val → Val → Val → Val → Val)
    (batch : Record) : Except WrapperError ModelOut :=
  Prod.snd <$> CANWrapper.call backbone batch

/-! ### Planetoid loader parameter validation
(`topobenchmarkx/data/loaders/graph/planetoid_datasets.py`) -/

/-- `PlanetoidDatasetLoader.VALID_DATASETS`. -/
def VALID_DATASETS : List String := ["Cora", "citeseer", "PubMed"]

/-- `PlanetoidDatasetLoader.VALID_TYPES`. -/
def VALID_TYPES : List String := ["cocitation"]

/-- The `ValueError`s `_validate_parameters` can raise, carrying the
offending parameter. -/
inductive LoaderError where
  | invalidDataName (name : String)
  | invalidDataType (t : String)
deriving DecidableEq, Repr

/-- `PlanetoidDatasetLoader._validate_parameters`: checks `data_name`
against `VALID_DATASETS` first, then `data_type` against `VALID_TYPES`;
each failure raises a `ValueError` (here: returns the error). -/
def validate_parameters (data_name data_type : String) :
    Except LoaderError Unit :=
  if data_name ∉ VALID_DATASETS then
    .error (.invalidDataName data_name)
  else if data_type ∉ VALID_TYPES then
    .error (.invalidDataType data_type)
  else
    .ok ()

/-! ### Local reduction lemmas so `simp` can evaluate the `do` blocks -/

@[simp] theorem exceptBind_ok {α β ε : Type} (k : α → Except ε β) (v : α) :
    Except.ok v >>= k = k v := rfl

@[simp] theorem exceptBind_error {α β ε : Type} (k : α → Except ε β)
    (e : ε) : (Except.error e : Except ε α) >>= k = Except.error e := rfl

@[simp] theorem exceptMap_ok {α β ε : Type} (k : α → β) (v : α) :
    k <$> (Except.ok v : Except ε α) = Except.ok (k v) := rfl

@[simp] theorem exceptMap_error {α β ε : Type} (k : α → β) (e : ε) :
    k <$> (Except.error e : Except ε α) = Except.error e := rfl

/-- `getAttr` on a record holding the field succeeds with the stored value. -/
theorem getAttr_of_lookup {r : Record} {f : String} {v : Val}
    (h : r.lookup f = some v) : r.getAttr f = .ok v := by
  simp [Record.getAttr, h]

/-- `getAttr` on a record lacking the field fails naming that field. -/
theorem getAttr_of_lookup_none {r : Record} {f : String}
    (h : r.lookup f = none) : r.getAttr f = .error (.missingField f) := by
  simp [Record.getAttr, h]

/-- Reduction of `HypergraphWrapper.call` when all read fields resolve. -/
theorem hypergraph_call_eq (b : Val → Val → Val × Val) (r : Record)
    (vy vx vi : Val) (hy : r.getAttr "y" = .ok vy)
    (hx : r.getAttr "x" = .ok vx) (hi : r.getAttr "incidence_1" = .ok vi) :
    HypergraphWrapper.call b r =
      .ok (r, [("labels", vy), ("x_0", (b vx vi).1),
               ("hyperedge", (b vx vi).2)]) := by
  unfold HypergraphWrapper.call
  rw [hy, hx, hi]
  rfl

/-- Reduction of `SANWrapper.call` when all read fields resolve. -/
theorem san_call_eq (b : Val → Val → Val → Val) (r : Record)
    (vy v1 vu vd vi : Val) (hy : r.getAttr "y" = .ok vy)
    (h1 : r.getAttr "x_1" = .ok v1)
    (hu : r.getAttr "laplacian_up_1" = .ok vu)
    (hd : r.getAttr "laplacian_down_1" = .ok vd)
    (hi : r.getAttr "incidence_1" = .ok vi) :
    SANWrapper.call b r =
      .ok (r, [("labels", vy), ("x_0", matMul vi (b v1 vu vd))]) := by
  unfold SANWrapper.call
  rw [hy, h1, hu, hd, hi]
  rfl

/-- Reduction of `CANWrapper.call` when all read fields resolve. -/
theorem can_call_eq (b : Val → Val → Val → Val → Val → Val) (r : Record)
    (vy vx v1 va vd vu : Val) (hy : r.getAttr "y" = .ok vy)
    (hx : r.getAttr "x" = .ok vx) (h1 : r.getAttr "x_1" = .ok v1)
    (ha : r.getAttr "adjacency_0" = .ok va)
    (hd : r.getAttr "down_laplacian_1" = .ok vd)
    (hu : r.getAttr "up_laplacian_1" = .ok vu) :
    CANWrapper.call b r = .ok (r, [("labels", vy),
      ("x_graph", b vx v1 va vd vu)]) := by
  unfold CANWrapper.call
  rw [hy, hx, h1, ha, hd, hu]
  rfl

/-- C1: for each wrapper variant, on a record providing every field that
variant reads, `forward` returns a map that contains `labels` bound to the
record's `y` value and at least one prediction-bearing key among `x_0`,
`hyperedge`, `x_graph`. -/
theorem C1_wrapper_output_contract :
    (∀ (b : Val → Val → Val × Val) (r : Record) (vy vx vi : Val),
      r.getAttr "y" = .ok vy → r.getAttr "x" = .ok vx →
      r.getAttr "incidence_1" = .ok vi →
      ∃ out, HypergraphWrapper.forward b r = .ok out ∧
        out.lookup "labels" = some vy ∧
        ((out.lookup "x_0").isSome ∨ (out.lookup "hyperedge").isSome ∨
          (out.lookup "x_graph").isSome)) ∧
    (∀ (b : Val → Val → Val → Val) (r : Record) (vy v1 vu vd vi : Val),
      r.getAttr "y" = .ok vy → r.getAttr "x_1" = .ok v1 →
      r.getAttr "laplacian_up_1" = .ok vu →
      r.getAttr "laplacian_down_1" = .ok vd →
      r.getAttr "incidence_1" = .ok vi →
      ∃ out, SANWrapper.forward b r = .ok out ∧
        out.lookup "labels" = some vy ∧
        ((out.lookup "x_0").isSome ∨ (out.lookup "hyperedge").isSome ∨
          (out.lookup "x_graph").isSome)) ∧
    (∀ (b : Val → Val → Val → Val → Val → Val) (r : Record)
      (vy vx v1 va vd vu : Val),
      r.getAttr "y" = .ok vy → r.getAttr "x" = .ok vx →
      r.getAttr "x_1" = .ok v1 → r.getAttr "adjacency_0" = .ok va →
      r.getAttr "down_laplacian_1" = .ok vd →
      r.getAttr "up_laplacian_1" = .ok vu →
      ∃ out, CANWrapper.forward b r = .ok out ∧
        out.lookup "labels" = some vy ∧
        ((out.lookup "x_0").isSome ∨ (out.lookup "hyperedge").isSome ∨
          (out.lookup "x_graph").isSome)) := by
  refine ⟨?_, ?_, ?_⟩
  · intro b r vy vx vi hy hx hi
    refine ⟨[("labels", vy), ("x_0", (b vx vi).1), ("hyperedge", (b vx vi).2)],
      ?_, ?_, ?_⟩
    · unfold HypergraphWrapper.forward
      rw [hypergraph_call_eq b r vy vx vi hy hx hi]
      rfl
    · simp [List.lookup]
    · left; simp [List.lookup]
  · intro b r vy v1 vu vd vi hy h1 hu hd hi
    refine ⟨[("labels", vy), ("x_0", matMul vi (b v1 vu vd))], ?_, ?_, ?_⟩
    · unfold SANWrapper.forward
      rw [san_call_eq b r vy v1 vu vd vi hy h1 hu hd hi]
      rfl
    · simp [List.lookup]
    · left; simp [List.lookup]
  · intro b r vy vx v1 va vd vu hy hx h1 ha hd hu
    refine ⟨[("labels", vy), ("x_graph", b vx v1 va vd vu)], ?_, ?_, ?_⟩
    · unfold CANWrapper.forward
      rw [can_call_eq b r vy vx v1 va vd vu hy hx h1 ha hd hu]
      rfl
    · simp [List.lookup]
    · right; right; simp [List.lookup]

/-- A concrete record holding every field any wrapper variant reads. -/
def recEx : Record :=
  [("y", [[0], [1]]), ("x", [[1, 0], [0, 1]]),
   ("incidence_1", [[1, 0], [0, 1], [1, 1]]),
   ("x_1", [[2], [3]]), ("laplacian_up_1", [[1, 0], [0, 1]]),
   ("laplacian_down_1", [[1, 0], [0, 1]]), ("adjacency_0", [[1]]),
   ("down_laplacian_1", [[1]]), ("up_laplacian_1", [[1]])]

/-- Witness for C1: the three wrapper contracts hold on `recEx` with
concrete backbones. -/
theorem C1_wrapper_output_contract_witness :
    (∃ out, HypergraphWrapper.forward (fun x i => (x, i)) recEx = .ok out ∧
      out.lookup "labels" = some [[0], [1]] ∧
      ((out.lookup "x_0").isSome ∨ (out.lookup "hyperedge").isSome ∨
        (out.lookup "x_graph").isSome)) ∧
    (∃ out, SANWrapper.forward (fun a _ _ => a) recEx = .ok out ∧
      out.lookup "labels" = some [[0], [1]] ∧
      ((out.lookup "x_0").isSome ∨ (out.lookup "hyperedge").isSome ∨
        (out.lookup "x_graph").isSome)) ∧
    (∃ out, CANWrapper.forward (fun a _ _ _ _ => a) recEx = .ok out ∧
      out.lookup "labels" = some [[0], [1]] ∧
      ((out.lookup "x_0").isSome ∨ (out.lookup "hyperedge").isSome ∨
        (out.lookup "x_graph").isSome)) :=
  ⟨C1_wrapper_output_contract.1 _ recEx [[0], [1]] [[1, 0], [0, 1]]
      [[1, 0], [0, 1], [1, 1]] rfl rfl rfl,
   C1_wrapper_output_contract.2.1 _ recEx [[0], [1]] [[2], [3]]
      [[1, 0], [0, 1]] [[1, 0], [0, 1]] [[1, 0], [0, 1], [1, 1]]
      rfl rfl rfl rfl rfl,
   C1_wrapper_output_contract.2.2 _ recEx [[0], [1]] [[1, 0], [0, 1]]
      [[2], [3]] [[1]] [[1]] [[1]] rfl rfl rfl rfl rfl rfl⟩

/-- C2: for the SAN-family wrapper on a record providing `x_1`,
`laplacian_up_1`, `laplacian_down_1`, `incidence_1`, `y`, the `x_0` entry
of the returned map equals the matrix product of the record's
`incidence_1` with the rank-1 backbone output on
`(x_1, laplacian_up_1, laplacian_down_1)`. -/
theorem C2_san_projection (b : Val → Val → Val → Val) (r : Record)
    (vy v1 vu vd vi : Val) (hy : r.getAttr "y" = .ok vy)
    (h1 : r.getAttr "x_1" = .ok v1)
    (hu : r.getAttr "laplacian_up_1" = .ok vu)
    (hd : r.getAttr "laplacian_down_1" = .ok vd)
    (hi : r.getAttr "incidence_1" = .ok vi) :
    ∃ out, SANWrapper.forward b r = .ok out ∧
      out.lookup "x_0" = some (matMul vi (b v1 vu vd)) := by
  refine ⟨[("labels", vy), ("x_0", matMul vi (b v1 vu vd))], ?_, ?_⟩
  · unfold SANWrapper.forward
    rw [san_call_eq b r vy v1 vu vd vi hy h1 hu hd hi]
    rfl
  · simp [List.lookup]

/-- Witness for C2: on `recEx` with an identity-style backbone returning
`x_1` itself, the projected `x_0` is the hand-computable product of the
3×2 incidence with the rank-1 vector. -/
theorem C2_san_projection_witness :
    ∃ out, SANWrapper.forward (fun a _ _ => a) recEx = .ok out ∧
      out.lookup "x_0" =
        some (matMul [[1, 0], [0, 1], [1, 1]] [[2], [3]]) :=
  C2_san_projection (fun a _ _ => a) recEx [[0], [1]] [[2], [3]]
    [[1, 0], [0, 1]] [[1, 0], [0, 1]] [[1, 0], [0, 1], [1, 1]]
    rfl rfl rfl rfl rfl

/-- C10: `_validate_parameters` succeeds exactly on the case-sensitive names
Cora / citeseer / PubMed together with data_type cocitation, and errors
otherwise. -/
theorem C10_planetoid_validation (data_name data_type : String) :
    (validate_parameters data_name data_type = .ok () ↔
      ((data_name = "Cora" ∨ data_name = "citeseer" ∨ data_name = "PubMed") ∧
        data_type = "cocitation")) ∧
    (validate_parameters data_name data_type = .ok () ∨
      ∃ e, validate_parameters data_name data_type = .error e) := by
  constructor
  · unfold validate_parameters VALID_DATASETS VALID_TYPES
    split_ifs with h1 h2 <;> simp_all [List.mem_cons]
  · cases h : validate_parameters data_name data_type with
    | ok u => cases u; exact .inl rfl
    | error e => exact .inr ⟨e, rfl⟩

@[simp] theorem exceptPure_eq (a : α) :
    (pure a : Except ε α) = Except.ok a := rfl

/-- `HypergraphWrapper.forward` reads only `y`, `x`, `incidence_1`: records
agreeing on those three fields produce the same result. -/
theorem hypergraph_forward_congr (b : Val → Val → Val × Val) (r r' : Record)
    (hy : r.getAttr "y" = r'.getAttr "y")
    (hx : r.getAttr "x" = r'.getAttr "x")
    (hi : r.getAttr "incidence_1" = r'.getAttr "incidence_1") :
    HypergraphWrapper.forward b r = HypergraphWrapper.forward b r' := by
  unfold HypergraphWrapper.forward HypergraphWrapper.call
  rw [hy, hx, hi]
  cases r'.getAttr "y" <;> cases r'.getAttr "x" <;>
    cases r'.getAttr "incidence_1" <;> rfl

/-- `SANWrapper.forward` reads only `y`, `x_1`, `laplacian_up_1`,
`laplacian_down_1`, `incidence_1`. -/
theorem san_forward_congr (b : Val → Val → Val → Val) (r r' : Record)
    (hy : r.getAttr "y" = r'.getAttr "y")
    (h1 : r.getAttr "x_1" = r'.getAttr "x_1")
    (hu : r.getAttr "laplacian_up_1" = r'.getAttr "laplacian_up_1")
    (hd : r.getAttr "laplacian_down_1" = r'.getAttr "laplacian_down_1")
    (hi : r.getAttr "incidence_1" = r'.getAttr "incidence_1") :
    SANWrapper.forward b r = SANWrapper.forward b r' := by
  unfold SANWrapper.forward SANWrapper.call
  rw [hy, h1, hu, hd, hi]
  cases r'.getAttr "y" <;> cases r'.getAttr "x_1" <;>
    cases r'.getAttr "laplacian_up_1" <;>
    cases r'.getAttr "laplacian_down_1" <;>
    cases r'.getAttr "incidence_1" <;> rfl

/-- `CANWrapper.forward` reads only `y`, `x`, `x_1`, `adjacency_0`,
`down_laplacian_1`, `up_laplacian_1`. -/
theorem can_forward_congr (b : Val → Val → Val → Val → Val → Val)
    (r r' : Record)
    (hy : r.getAttr "y" = r'.getAttr "y")
    (hx : r.getAttr "x" = r'.getAttr "x")
    (h1 : r.getAttr "x_1" = r'.getAttr "x_1")
    (ha : r.getAttr "adjacency_0" = r'.getAttr "adjacency_0")
    (hd : r.getAttr "down_laplacian_1" = r'.getAttr "down_laplacian_1")
    (hu : r.getAttr "up_laplacian_1" = r'.getAttr "up_laplacian_1") :
    CANWrapper.forward b r = CANWrapper.forward b r' := by
  unfold CANWrapper.forward CANWrapper.call
  rw [hy, hx, h1, ha, hd, hu]
  cases r'.getAttr "y" <;> cases r'.getAttr "x" <;>
    cases r'.getAttr "x_1" <;> cases r'.getAttr "adjacency_0" <;>
    cases r'.getAttr "down_laplacian_1" <;>
    cases r'.getAttr "up_laplacian_1" <;> rfl

/-- C3: each wrapper passes to its backbone exactly the declared field
values in the declared order (visible in the returned map, which applies
the backbone precisely to those values), and the result depends on no
other record field (records agreeing on the declared fields and `y` give
identical forward results). -/
theorem C3_wrapper_argument_lists :
    (∀ (b : Val → Val → Val × Val) (r : Record) (vy vx vi : Val),
      r.getAttr "y" = .ok vy → r.getAttr "x" = .ok vx →
      r.getAttr "incidence_1" = .ok vi →
      HypergraphWrapper.forward b r = .ok [("labels", vy),
        ("x_0", (b vx vi).1), ("hyperedge", (b vx vi).2)]) ∧
    (∀ (b : Val → Val → Val → Val) (r : Record) (vy v1 vu vd vi : Val),
      r.getAttr "y" = .ok vy → r.getAttr "x_1" = .ok v1 →
      r.getAttr "laplacian_up_1" = .ok vu →
      r.getAttr "laplacian_down_1" = .ok vd →
      r.getAttr "incidence_1" = .ok vi →
      SANWrapper.forward b r = .ok [("labels", vy),
        ("x_0", matMul vi (b v1 vu vd))]) ∧
    (∀ (b : Val → Val → Val → Val → Val → Val) (r : Record)
      (vy vx v1 va vd vu : Val),
      r.getAttr "y" = .ok vy → r.getAttr "x" = .ok vx →
      r.getAttr "x_1" = .ok v1 → r.getAttr "adjacency_0" = .ok va →
      r.getAttr "down_laplacian_1" = .ok vd →
      r.getAttr "up_laplacian_1" = .ok vu →
      CANWrapper.forward b r = .ok [("labels", vy),
        ("x_graph", b vx v1 va vd vu)]) ∧
    (∀ (b : Val → Val → Val × Val) (r r' : Record),
      r.getAttr "y" = r'.getAttr "y" → r.getAttr "x" = r'.getAttr "x" →
      r.getAttr "incidence_1" = r'.getAttr "incidence_1" →
      HypergraphWrapper.forward b r = HypergraphWrapper.forward b r') ∧
    (∀ (b : Val → Val → Val → Val) (r r' : Record),
      r.getAttr "y" = r'.getAttr "y" → r.getAttr "x_1" = r'.getAttr "x_1" →
      r.getAttr "laplacian_up_1" = r'.getAttr "laplacian_up_1" →
      r.getAttr "laplacian_down_1" = r'.getAttr "laplacian_down_1" →
      r.getAttr "incidence_1" = r'.getAttr "incidence_1" →
      SANWrapper.forward b r = SANWrapper.forward b r') ∧
    (∀ (b : Val → Val → Val → Val → Val → Val) (r r' : Record),
      r.getAttr "y" = r'.getAttr "y" → r.getAttr "x" = r'.getAttr "x" →
      r.getAttr "x_1" = r'.getAttr "x_1" →
      r.getAttr "adjacency_0" = r'.getAttr "adjacency_0" →
      r.getAttr "down_laplacian_1" = r'.getAttr "down_laplacian_1" →
      r.getAttr "up_laplacian_1" = r'.getAttr "up_laplacian_1" →
      CANWrapper.forward b r = CANWrapper.forward b r') := by
  refine ⟨?_, ?_, ?_, hypergraph_forward_congr, san_forward_congr,
    can_forward_congr⟩
  · intro b r vy vx vi hy hx hi
    unfold HypergraphWrapper.forward
    rw [hypergraph_call_eq b r vy vx vi hy hx hi]
    rfl
  · intro b r vy v1 vu vd vi hy h1 hu hd hi
    unfold SANWrapper.forward
    rw [san_call_eq b r vy v1 vu vd vi hy h1 hu hd hi]
    rfl
  · intro b r vy vx v1 va vd vu hy hx h1 ha hd hu
    unfold CANWrapper.forward
    rw [can_call_eq b r vy vx v1 va vd vu hy hx h1 ha hd hu]
    rfl

/-- `recEx` with one extra, unrelated field prepended. -/
def recEx2 : Record := ("extra", [[9]]) :: recEx

/-- Witness for C3: both the argument-passing equations and the
agreement statements hold on `recEx` and on `recEx2`, which differs from
`recEx` only in a field no wrapper reads. -/
theorem C3_wrapper_argument_lists_witness :
    (HypergraphWrapper.forward (fun x i => (x, i)) recEx =
      .ok [("labels", [[0], [1]]), ("x_0", [[1, 0], [0, 1]]),
           ("hyperedge", [[1, 0], [0, 1], [1, 1]])]) ∧
    (SANWrapper.forward (fun a _ _ => a) recEx =
      .ok [("labels", [[0], [1]]),
           ("x_0", matMul [[1, 0], [0, 1], [1, 1]] [[2], [3]])]) ∧
    (CANWrapper.forward (fun a _ _ _ _ => a) recEx =
      .ok [("labels", [[0], [1]]), ("x_graph", [[1, 0], [0, 1]])]) ∧
    (HypergraphWrapper.forward (fun x i => (x, i)) recEx =
      HypergraphWrapper.forward (fun x i => (x, i)) recEx2) ∧
    (SANWrapper.forward (fun a _ _ => a) recEx =
      SANWrapper.forward (fun a _ _ => a) recEx2) ∧
    (CANWrapper.forward (fun a _ _ _ _ => a) recEx =
      CANWrapper.forward (fun a _ _ _ _ => a) recEx2) :=
  ⟨C3_wrapper_argument_lists.1 _ recEx [[0], [1]] [[1, 0], [0, 1]]
      [[1, 0], [0, 1], [1, 1]] rfl rfl rfl,
   C3_wrapper_argument_lists.2.1 _ recEx [[0], [1]] [[2], [3]]
      [[1, 0], [0, 1]] [[1, 0], [0, 1]] [[1, 0], [0, 1], [1, 1]]
      rfl rfl rfl rfl rfl,
   C3_wrapper_argument_lists.2.2.1 _ recEx [[0], [1]] [[1, 0], [0, 1]]
      [[2], [3]] [[1]] [[1]] [[1]] rfl rfl rfl rfl rfl rfl,
   C3_wrapper_argument_lists.2.2.2.1 _ recEx recEx2 rfl rfl rfl,
   C3_wrapper_argument_lists.2.2.2.2.1 _ recEx recEx2 rfl rfl rfl rfl rfl,
   C3_wrapper_argument_lists.2.2.2.2.2 _ recEx recEx2 rfl rfl rfl rfl rfl rfl⟩

/-- C9: a successful wrapper call returns the input record unchanged (no
field added, removed or overwritten) next to a freshly built output map
whose keys are exactly the ones the wrapper writes. -/
theorem C9_wrapper_no_mutation :
    (∀ (b : Val → Val → Val × Val) (r : Record) (pr : Record × ModelOut),
      HypergraphWrapper.call b r = .ok pr →
      pr.1 = r ∧ pr.2.map Prod.fst = ["labels", "x_0", "hyperedge"]) ∧
    (∀ (b : Val → Val → Val → Val) (r : Record) (pr : Record × ModelOut),
      SANWrapper.call b r = .ok pr →
      pr.1 = r ∧ pr.2.map Prod.fst = ["labels", "x_0"]) ∧
    (∀ (b : Val → Val → Val → Val → Val → Val) (r : Record)
      (pr : Record × ModelOut),
      CANWrapper.call b r = .ok pr →
      pr.1 = r ∧ pr.2.map Prod.fst = ["labels", "x_graph"]) := by
  refine ⟨?_, ?_, ?_⟩ <;> intro b r pr h
  · unfold HypergraphWrapper.call at h
    cases hy : r.getAttr "y" <;> rw [hy] at h <;>
      cases hx : r.getAttr "x" <;> rw [hx] at h <;>
      cases hi : r.getAttr "incidence_1" <;> rw [hi] at h <;>
      simp only [exceptBind_ok, exceptBind_error, exceptPure_eq] at h <;>
      (cases h; all_goals exact ⟨rfl, rfl⟩)
  · unfold SANWrapper.call at h
    cases hy : r.getAttr "y" <;> rw [hy] at h <;>
      cases h1 : r.getAttr "x_1" <;> rw [h1] at h <;>
      cases hu : r.getAttr "laplacian_up_1" <;> rw [hu] at h <;>
      cases hd : r.getAttr "laplacian_down_1" <;> rw [hd] at h <;>
      cases hi : r.getAttr "incidence_1" <;> rw [hi] at h <;>
      simp only [exceptBind_ok, exceptBind_error, exceptPure_eq] at h <;>
      (cases h; all_goals exact ⟨rfl, rfl⟩)
  · unfold CANWrapper.call at h
    cases hy : r.getAttr "y" <;> rw [hy] at h <;>
      cases hx : r.getAttr "x" <;> rw [hx] at h <;>
      cases h1 : r.getAttr "x_1" <;> rw [h1] at h <;>
      cases ha : r.getAttr "adjacency_0" <;> rw [ha] at h <;>
      cases hd : r.getAttr "down_laplacian_1" <;> rw [hd] at h <;>
      cases hu : r.getAttr "up_laplacian_1" <;> rw [hu] at h <;>
      simp only [exceptBind_ok, exceptBind_error, exceptPure_eq] at h <;>
      (cases h; all_goals exact ⟨rfl, rfl⟩)

/-- Witness for C9: concrete successful calls on `recEx` leave the record
intact and write the expected keys. -/
theorem C9_wrapper_no_mutation_witness :
    (((recEx, [("labels", [[0], [1]]), ("x_0", [[1, 0], [0, 1]]),
        ("hyperedge", [[1, 0], [0, 1], [1, 1]])]) :
          Record × ModelOut).1 = recEx ∧
      ([("labels", ([[0], [1]] : Val)), ("x_0", [[1, 0], [0, 1]]),
        ("hyperedge", [[1, 0], [0, 1], [1, 1]])].map Prod.fst =
          ["labels", "x_0", "hyperedge"])) ∧
    (((recEx, [("labels", [[0], [1]]),
        ("x_0", matMul [[1, 0], [0, 1], [1, 1]] [[2], [3]])]) :
          Record × ModelOut).1 = recEx ∧
      ([("labels", ([[0], [1]] : Val)),
        ("x_0", matMul [[1, 0], [0, 1], [1, 1]] [[2], [3]])].map Prod.fst =
          ["labels", "x_0"])) ∧
    (((recEx, [("labels", [[0], [1]]), ("x_graph", [[1, 0], [0, 1]])]) :
          Record × ModelOut).1 = recEx ∧
      ([("labels", ([[0], [1]] : Val)),
        ("x_graph", [[1, 0], [0, 1]])].map Prod.fst =
          ["labels", "x_graph"])) :=
  ⟨C9_wrapper_no_mutation.1 (fun x i => (x, i)) recEx _ rfl,
   C9_wrapper_no_mutation.2.1 (fun a _ _ => a) recEx _ rfl,
   C9_wrapper_no_mutation.2.2 (fun a _ _ _ _ => a) recEx _ rfl⟩

/-- C8: whenever the record lacks any field a wrapper variant needs, that
variant's forward call returns a missing-field error naming an absent
field, never an output map. -/
theorem C8_missing_field_error :
    (∀ (b : Val → Val → Val × Val) (r : Record),
      (r.lookup "y" = none ∨ r.lookup "x" = none ∨
        r.lookup "incidence_1" = none) →
      ∃ f, HypergraphWrapper.forward b r = .error (.missingField f) ∧
        r.lookup f = none) ∧
    (∀ (b : Val → Val → Val → Val) (r : Record),
      (r.lookup "y" = none ∨ r.lookup "x_1" = none ∨
        r.lookup "laplacian_up_1" = none ∨
        r.lookup "laplacian_down_1" = none ∨
        r.lookup "incidence_1" = none) →
      ∃ f, SANWrapper.forward b r = .error (.missingField f) ∧
        r.lookup f = none) ∧
    (∀ (b : Val → Val → Val → Val → Val → Val) (r : Record),
      (r.lookup "y" = none ∨ r.lookup "x" = none ∨ r.lookup "x_1" = none ∨
        r.lookup "adjacency_0" = none ∨
        r.lookup "down_laplacian_1" = none ∨
        r.lookup "up_laplacian_1" = none) →
      ∃ f, CANWrapper.forward b r = .error (.missingField f) ∧
        r.lookup f = none) := by
  refine ⟨?_, ?_, ?_⟩ <;> intro b r hmiss
  · cases hy : r.lookup "y" with
    | none =>
      exact ⟨"y", by simp [HypergraphWrapper.forward, HypergraphWrapper.call,
        getAttr_of_lookup_none hy], hy⟩
    | some vy =>
      cases hx : r.lookup "x" with
      | none =>
        exact ⟨"x", by simp [HypergraphWrapper.forward,
          HypergraphWrapper.call, getAttr_of_lookup hy,
          getAttr_of_lookup_none hx], hx⟩
      | some vx =>
        cases hi : r.lookup "incidence_1" with
        | none =>
          exact ⟨"incidence_1", by simp [HypergraphWrapper.forward,
            HypergraphWrapper.call, getAttr_of_lookup hy,
            getAttr_of_lookup hx, getAttr_of_lookup_none hi], hi⟩
        | some vi => rcases hmiss with h | h | h <;> simp_all
  · cases hy : r.lookup "y" with
    | none =>
      exact ⟨"y", by simp [SANWrapper.forward, SANWrapper.call,
        getAttr_of_lookup_none hy], hy⟩
    | some vy =>
      cases h1 : r.lookup "x_1" with
      | none =>
        exact ⟨"x_1", by simp [SANWrapper.forward, SANWrapper.call,
          getAttr_of_lookup hy, getAttr_of_lookup_none h1], h1⟩
      | some v1 =>
        cases hu : r.lookup "laplacian_up_1" with
        | none =>
          exact ⟨"laplacian_up_1", by simp [SANWrapper.forward,
            SANWrapper.call, getAttr_of_lookup hy, getAttr_of_lookup h1,
            getAttr_of_lookup_none hu], hu⟩
        | some vu =>
          cases hd : r.lookup "laplacian_down_1" with
          | none =>
            exact ⟨"laplacian_down_1", by simp [SANWrapper.forward,
              SANWrapper.call, getAttr_of_lookup hy, getAttr_of_lookup h1,
              getAttr_of_lookup hu, getAttr_of_lookup_none hd], hd⟩
          | some vd =>
            cases hi : r.lookup "incidence_1" with
            | none =>
              exact ⟨"incidence_1", by simp [SANWrapper.forward,
                SANWrapper.call, getAttr_of_lookup hy, getAttr_of_lookup h1,
                getAttr_of_lookup hu, getAttr_of_lookup hd,
                getAttr_of_lookup_none hi], hi⟩
            | some vi =>
              rcases hmiss with h | h | h | h | h <;> simp_all
  · cases hy : r.lookup "y" with
    | none =>
      exact ⟨"y", by simp [CANWrapper.forward, CANWrapper.call,
        getAttr_of_lookup_none hy], hy⟩
    | some vy =>
      cases hx : r.lookup "x" with
      | none =>
        exact ⟨"x", by simp [CANWrapper.forward, CANWrapper.call,
          getAttr_of_lookup hy, getAttr_of_lookup_none hx], hx⟩
      | some vx =>
        cases h1 : r.lookup "x_1" with
        | none =>
          exact ⟨"x_1", by simp [CANWrapper.forward, CANWrapper.call,
            getAttr_of_lookup hy, getAttr_of_lookup hx,
            getAttr_of_lookup_none h1], h1⟩
        | some v1 =>
          cases ha : r.lookup "adjacency_0" with
          | none =>
            exact ⟨"adjacency_0", by simp [CANWrapper.forward,
              CANWrapper.call, getAttr_of_lookup hy, getAttr_of_lookup hx,
              getAttr_of_lookup h1, getAttr_of_lookup_none ha], ha⟩
          | some va =>
            cases hd : r.lookup "down_laplacian_1" with
            | none =>
              exact ⟨"down_laplacian_1", by simp [CANWrapper.forward,
                CANWrapper.call, getAttr_of_lookup hy, getAttr_of_lookup hx,
                getAttr_of_lookup h1, getAttr_of_lookup ha,
                getAttr_of_lookup_none hd], hd⟩
            | some vd =>
              cases hu : r.lookup "up_laplacian_1" with
              | none =>
                exact ⟨"up_laplacian_1", by simp [CANWrapper.forward,
                  CANWrapper.call, getAttr_of_lookup hy,
                  getAttr_of_lookup hx, getAttr_of_lookup h1,
                  getAttr_of_lookup ha, getAttr_of_lookup hd,
                  getAttr_of_lookup_none hu], hu⟩
              | some vu =>
                rcases hmiss with h | h | h | h | h | h <;> simp_all

/-- A record holding only `y`: every wrapper variant is missing at least
one field it reads. -/
def recOnlyY : Record := [("y", [[0]])]

/-- Witness for C8: on the record holding only `y`, each wrapper variant
fails with a missing-field error naming an absent field. -/
theorem C8_missing_field_error_witness :
    (∃ f, HypergraphWrapper.forward (fun x i => (x, i)) recOnlyY =
        .error (.missingField f) ∧ recOnlyY.lookup f = none) ∧
    (∃ f, SANWrapper.forward (fun a _ _ => a) recOnlyY =
        .error (.missingField f) ∧ recOnlyY.lookup f = none) ∧
    (∃ f, CANWrapper.forward (fun a _ _ _ _ => a) recOnlyY =
        .error (.missingField f) ∧ recOnlyY.lookup f = none) :=
  ⟨C8_missing_field_error.1 _ recOnlyY (.inr (.inl rfl)),
   C8_missing_field_error.2.1 _ recOnlyY (.inr (.inl rfl)),
   C8_missing_field_error.2.2 _ recOnlyY (.inr (.inl rfl))⟩

/-! ### Wrapper selection in `NetworkModule.__init__`
(`topobenchmarkx/models/network_module.py`).

The source compares `str(backbone.__class__)` against literal strings of
the form `<class ... dotted.path ...>`; since `str` renders exactly the
dotted path of the class inside that fixed frame, the embedding identifies
a backbone class with its dotted path string. -/

/-- The wrapper variant chosen by `NetworkModule.__init__`. -/
inductive WrapperChoice where
  | hypergraph
  | san
deriving DecidableEq, Repr

/-- The `NotImplementedError` raised by `NetworkModule.__init__` for a
backbone class with no wrapper variant (the spec's
`UnsupportedBackboneError`). -/
inductive NetworkModuleError where
  | unsupportedBackbone (cls : String)
deriving DecidableEq, Repr

/-- The dispatch in `NetworkModule.__init__`: UniGCNII and
AllSetTransformer get the `HypergraphWrapper`, SAN gets the `SANWrapper`,
anything else raises. -/
def network_module_select_wrapper (backboneClass : String) :
    Except NetworkModuleError WrapperChoice :=
  if backboneClass = "topomodelx.nn.hypergraph.unigcnii.UniGCNII" ∨
      backboneClass =
        "topomodelx.nn.hypergraph.allset_transformer.AllSetTransformer" then
    .ok .hypergraph
  else if backboneClass = "topomodelx.nn.simplicial.san.SAN" then
    .ok .san
  else
    .error (.unsupportedBackbone backboneClass)

/-- C5: a backbone class outside the registered families makes
`NetworkModule.__init__` signal an unsupported-backbone error, and the
registered families select their matching wrapper variant. -/
theorem C5_backbone_dispatch :
    (∀ cls : String,
      cls ∉ (["topomodelx.nn.hypergraph.unigcnii.UniGCNII",
        "topomodelx.nn.hypergraph.allset_transformer.AllSetTransformer",
        "topomodelx.nn.simplicial.san.SAN"] : List String) →
      network_module_select_wrapper cls = .error (.unsupportedBackbone cls)) ∧
    network_module_select_wrapper
      "topomodelx.nn.hypergraph.unigcnii.UniGCNII" = .ok .hypergraph ∧
    network_module_select_wrapper
      "topomodelx.nn.hypergraph.allset_transformer.AllSetTransformer" =
        .ok .hypergraph ∧
    network_module_select_wrapper
      "topomodelx.nn.simplicial.san.SAN" = .ok .san := by
  refine ⟨?_, rfl, rfl, rfl⟩
  intro cls hcls
  simp only [List.mem_cons, List.not_mem_nil, or_false, not_or] at hcls
  unfold network_module_select_wrapper
  rw [if_neg, if_neg]
  · exact hcls.2.2
  · exact fun h => absurd h (by simp [hcls.1, hcls.2.1])

/-- Witness for C5: a concrete unregistered backbone class is rejected. -/
theorem C5_backbone_dispatch_witness :
    network_module_select_wrapper "topomodelx.nn.cell.can.CAN" =
      .error (.unsupportedBackbone "topomodelx.nn.cell.can.CAN") :=
  C5_backbone_dispatch.1 "topomodelx.nn.cell.can.CAN" (by decide)

/-! ### Lifting registry
(`topobenchmark/transforms/liftings/graph2graph/__init__.py`) -/

/-- A Python class as the discovery scan sees it: its exported name,
whether it passes `issubclass(obj, LiftingMap)` (the `LiftingMap`
capability: it exposes the transform operation), and whether it is
abstract. -/
structure PyClass where
  name : String
  hasLiftingMapCapability : Bool
  isAbstract : Bool
deriving DecidableEq, Repr

/-- Modelled from the spec: `discover_objs`
(`topobenchmark/transforms/_utils.py`, not included in the excerpt) scans
the classes reachable from the given module and builds the name-to-class
mapping of those that pass the supplied condition; per the spec, "the
discovery predicate selects only types that satisfy the `LiftingMap`
capability ... and are concrete (not the abstract base itself)", so
abstract classes are excluded. -/
def discover_objs (candidates : List PyClass)
    (condition : String → PyClass → Bool) : List (String × PyClass) :=
  (candidates.filter (fun c => condition c.name c && !c.isAbstract)).map
    (fun c => (c.name, c))

/-- The abstract `LiftingMap` base class
(`topobenchmark/transforms/liftings/base.py`). -/
def LiftingMapBase : PyClass :=
  { name := "LiftingMap", hasLiftingMapCapability := true,
    isAbstract := true }

/-- `GRAPH2GRAPH_LIFTINGS`: `discover_objs` applied with the condition
`issubclass(obj, LiftingMap)` from the source `__init__`. -/
def GRAPH2GRAPH_LIFTINGS (candidates : List PyClass) :
    List (String × PyClass) :=
  discover_objs candidates (fun _ obj => obj.hasLiftingMapCapability)

/-- C6: every entry the discovery admits into `GRAPH2GRAPH_LIFTINGS` has
the `LiftingMap` capability and is concrete; the abstract `LiftingMap`
base never appears among the discovered values. -/
theorem C6_registry_discovery_predicate :
    (∀ (candidates : List PyClass) (n : String) (c : PyClass),
      (n, c) ∈ GRAPH2GRAPH_LIFTINGS candidates →
      c.hasLiftingMapCapability = true ∧ c.isAbstract = false) ∧
    (∀ (candidates : List PyClass) (n : String),
      (n, LiftingMapBase) ∉ GRAPH2GRAPH_LIFTINGS candidates) := by
  constructor
  · intro candidates n c hmem
    unfold GRAPH2GRAPH_LIFTINGS discover_objs at hmem
    simp only [List.mem_map, List.mem_filter, Bool.and_eq_true,
      Bool.not_eq_true'] at hmem
    obtain ⟨c', ⟨_, hcap, habs⟩, heq⟩ := hmem
    cases heq
    exact ⟨hcap, habs⟩
  · intro candidates n hmem
    unfold GRAPH2GRAPH_LIFTINGS discover_objs at hmem
    simp only [List.mem_map, List.mem_filter, Bool.and_eq_true,
      Bool.not_eq_true'] at hmem
    obtain ⟨c', ⟨_, _, habs⟩, heq⟩ := hmem
    rw [show c' = LiftingMapBase from congrArg Prod.snd heq] at habs
    exact absurd habs (by simp [LiftingMapBase])

/-- A concrete candidate pool: the abstract base, a concrete lifting, and
a helper class without the capability. -/
def candidatesEx : List PyClass :=
  [LiftingMapBase,
   { name := "KHopLifting", hasLiftingMapCapability := true,
     isAbstract := false },
   { name := "SomeHelper", hasLiftingMapCapability := false,
     isAbstract := false }]

/-- Witness for C6: on `candidatesEx` the admitted `KHopLifting` is a
capable concrete class, and the abstract base is not admitted. -/
theorem C6_registry_discovery_predicate_witness :
    ((PyClass.mk "KHopLifting" true false).hasLiftingMapCapability = true ∧
      (PyClass.mk "KHopLifting" true false).isAbstract = false) ∧
    ("LiftingMap", LiftingMapBase) ∉ GRAPH2GRAPH_LIFTINGS candidatesEx :=
  ⟨C6_registry_discovery_predicate.1 candidatesEx "KHopLifting"
      (PyClass.mk "KHopLifting" true false) (by decide),
   C6_registry_discovery_predicate.2 candidatesEx "LiftingMap"⟩

/-! ### `DataloadDataset`
(`topobenchmarkx/data/dataload`, exercised by
`test/data/dataload/test_dataload_dataset.py`) -/

/-- Modelled from the spec: `DataloadDataset` (its module is not included
in the excerpt; the test constructs it from a list of records) stores the
ingested records; per the spec, `length()` is the number of stored
records and `get(i)` returns the record at position `i` together with the
ordered field names of the original ingested sample (insertion order
preserved, not sorted), failing like an out-of-range index access
otherwise (here: `none`). -/
structure DataloadDataset where
  data_lst : List Record

/-- `len(dataset)`. -/
def DataloadDataset.len (d : DataloadDataset) : Nat := d.data_lst.length

/-- `dataset.get(i)`: the values and field names of sample `i`. -/
def DataloadDataset.get (d : DataloadDataset) (i : Nat) :
    Option (List Val × List String) :=
  match d.data_lst[i]? with
  | some data => some (data.map Prod.snd, data.map Prod.fst)
  | none => none

/-- C4: for every in-range index, `get` succeeds, the reported field names
are the original sample's names in insertion order, and zipping those
names with the returned values recovers the original sample exactly
(element-wise equal values). -/
theorem C4_dataset_round_trip (lst : List Record) (i : Nat)
    (h : i < lst.length) :
    ∃ vals keys, (DataloadDataset.mk lst).get i = some (vals, keys) ∧
      keys = (lst.get ⟨i, h⟩).map Prod.fst ∧
      keys.zip vals = lst.get ⟨i, h⟩ := by
  refine ⟨(lst.get ⟨i, h⟩).map Prod.snd, (lst.get ⟨i, h⟩).map Prod.fst,
    ?_, rfl, ?_⟩
  · unfold DataloadDataset.get
    rw [List.getElem?_eq_getElem h]
    rfl
  · induction lst.get ⟨i, h⟩ with
    | nil => rfl
    | cons hd tl ih => simp [List.zip, ih]

/-- Witness for C4: the two-record dataset from the repository's own test
setup (shapes abridged), at index 1. -/
theorem C4_dataset_round_trip_witness :
    ∃ vals keys,
      (DataloadDataset.mk
        [[("x", [[1, 2]]), ("edge_index", [[0], [1]])],
         [("x", [[3, 4]]), ("edge_index", [[0], [2]]),
          ("x_1", [[5, 6]])]]).get 1 = some (vals, keys) ∧
      keys = [("x", ([[3, 4]] : Val)), ("edge_index", [[0], [2]]),
        ("x_1", [[5, 6]])].map Prod.fst ∧
      keys.zip vals = [("x", [[3, 4]]), ("edge_index", [[0], [2]]),
        ("x_1", [[5, 6]])] :=
  C4_dataset_round_trip
    [[("x", [[1, 2]]), ("edge_index", [[0], [1]])],
     [("x", [[3, 4]]), ("edge_index", [[0], [2]]), ("x_1", [[5, 6]])]]
    1 (by decide)

/-! ### Mask application in the training / validation / test steps
(`topobenchmarkx/models/network_module.py`).

Each of `training_step`, `validation_step`, `test_step` runs the same
loop over `model_out` right after `model_step` and before
`self.evaluator.eval(model_out)` and the metric logging:
entries whose key is not in `["loss", "hyperedge"]` are replaced by
`val[batch.<stage>_mask]`; the functions below compute the map each step
hands to the evaluator, given `model_step`'s output and the stage mask. -/

/-- Boolean row indexing `val[mask]`: keep the rows whose mask entry is
`true`. -/
def applyMask (mask : List Bool) (v : Val) : Val :=
  ((v.zip mask).filter (fun p => p.2)).map (fun p => p.1)

/-- The map `training_step` passes to the evaluator: the masking loop with
`batch.train_mask`. -/
def training_step_evaluator_input (train_mask : List Bool)
    (model_out : ModelOut) : ModelOut :=
  model_out.map (fun kv =>
    if kv.1 ∈ (["loss", "hyperedge"] : List String) then kv
    else (kv.1, applyMask train_mask kv.2))

/-- The map `validation_step` passes to the evaluator: the same loop with
`batch.val_mask`. -/
def validation_step_evaluator_input (val_mask : List Bool)
    (model_out : ModelOut) : ModelOut :=
  model_out.map (fun kv =>
    if kv.1 ∈ (["loss", "hyperedge"] : List String) then kv
    else (kv.1, applyMask val_mask kv.2))

/-- The map `test_step` passes to the evaluator: the same loop with
`batch.test_mask`. -/
def test_step_evaluator_input (test_mask : List Bool)
    (model_out : ModelOut) : ModelOut :=
  model_out.map (fun kv =>
    if kv.1 ∈ (["loss", "hyperedge"] : List String) then kv
    else (kv.1, applyMask test_mask kv.2))

/-- The masking the claim asserts, written from the spec's words: every
entry that carries labels or predictions — everything except the scalar
`loss` — restricted to the mask.  Kept for comparison with the source's
loop. -/
def claimed_step_evaluator_input (mask : List Bool) (model_out : ModelOut) :
    ModelOut :=
  model_out.map (fun kv =>
    if kv.1 = "loss" then kv else (kv.1, applyMask mask kv.2))

/-- An output map as the hypergraph family produces it: labels, node
predictions, and the rank-1 `hyperedge` output. -/
def modelOutEx : ModelOut :=
  [("labels", [[0], [1]]), ("x_0", [[5], [6]]), ("hyperedge", [[7], [8]])]

/-- Counterexample to C7: on `modelOutEx` with mask `[true, false]` the
`hyperedge` entry — a prediction-bearing key — reaches the evaluator
unmasked: it still holds both rows although the mask keeps only the
first, so the step differs from the claimed all-but-loss masking. -/
theorem C7_counterexample :
    List.lookup "hyperedge"
        (training_step_evaluator_input [true, false] modelOutEx) =
      some [[7], [8]] ∧
    applyMask [true, false] [[7], [8]] = [[7]] ∧
    training_step_evaluator_input [true, false] modelOutEx ≠
      claimed_step_evaluator_input [true, false] modelOutEx := by
  decide

/-- C7 (amended): in each of the three steps, every entry whose key is
neither `loss` nor `hyperedge` is restricted to the corresponding mask
before the evaluator is invoked; `loss` and `hyperedge` entries pass
through unchanged; and training, validation and test run the identical
loop with their respective masks. -/
theorem C7_step_masking_amended (mask : List Bool) (out : ModelOut)
    (k : String) (v : Val) (hmem : (k, v) ∈ out) :
    (training_step_evaluator_input mask out =
        validation_step_evaluator_input mask out ∧
      training_step_evaluator_input mask out =
        test_step_evaluator_input mask out) ∧
    (k ∉ (["loss", "hyperedge"] : List String) →
      (k, applyMask mask v) ∈ training_step_evaluator_input mask out) ∧
    (k ∈ (["loss", "hyperedge"] : List String) →
      (k, v) ∈ training_step_evaluator_input mask out) := by
  refine ⟨⟨rfl, rfl⟩, ?_, ?_⟩
  · intro hk
    have := List.mem_map_of_mem (fun kv : String × Val =>
      if kv.1 ∈ (["loss", "hyperedge"] : List String) then kv
      else (kv.1, applyMask mask kv.2)) hmem
    simpa [training_step_evaluator_input, hk] using this
  · intro hk
    have := List.mem_map_of_mem (fun kv : String × Val =>
      if kv.1 ∈ (["loss", "hyperedge"] : List String) then kv
      else (kv.1, applyMask mask kv.2)) hmem
    simpa [training_step_evaluator_input, hk] using this

/-- Witness for the amended C7: on `modelOutEx` the node-level `x_0` entry
is masked down to its first row while `hyperedge` passes through. -/
theorem C7_step_masking_amended_witness :
    ((training_step_evaluator_input [true, false] modelOutEx =
        validation_step_evaluator_input [true, false] modelOutEx ∧
      training_step_evaluator_input [true, false] modelOutEx =
        test_step_evaluator_input [true, false] modelOutEx) ∧
    ("x_0" ∉ (["loss", "hyperedge"] : List String) →
      ("x_0", applyMask [true, false] [[5], [6]]) ∈
        training_step_evaluator_input [true, false] modelOutEx) ∧
    ("x_0" ∈ (["loss", "hyperedge"] : List String) →
      ("x_0", ([[5], [6]] : Val)) ∈
        training_step_evaluator_input [true, false] modelOutEx)) ∧
    (("hyperedge" ∉ (["loss", "hyperedge"] : List String) →
      ("hyperedge", applyMask [true, false] [[7], [8]]) ∈
        training_step_evaluator_input [true, false] modelOutEx) ∧
    ("hyperedge" ∈ (["loss", "hyperedge"] : List String) →
      ("hyperedge", ([[7], [8]] : Val)) ∈
        training_step_evaluator_input [true, false] modelOutEx)) :=
  ⟨C7_step_masking_amended [true, false] modelOutEx "x_0" [[5], [6]]
      (by decide),
   (C7_step_masking_amended [true, false] modelOutEx "hyperedge" [[7], [8]]
      (by decide)).2⟩
